import Mathlib

/-!
Verification development for the sardana scan-data recorder module
(`sardana/macroserver/scan/recorder/storage.py`).

The Python code is shallowly embedded: pure fragments become Lean
functions, values are modelled by their observable renderings, and the
interactions with external services (Tango database, NeXus settings and
writer devices, the file system) are modelled by explicit parameters
(catalogs as functions, failure schedules as boolean flags).
-/

set_option autoImplicit false

namespace Sardana

/-! ## Data-source resolution (`NXS_FileRecorder.__searchDataSources`) -/

/-- One datasource entry of a fetched component, as decoded from
`nexussettings_device.clientSources([cp])`: the datasource name
(`dsname`), the acquisition strategy (`strategy`, e.g. "STEP") and the
client record key (`record`). -/
structure CompDS where
  dsname : String
  strategy : String
  record : String
deriving DecidableEq

/-- STEP-strategy datasource names of a fetched component:
`dss = [ds["dsname"] for ds in cpdss if ds["strategy"] == 'STEP']`. -/
def stepNames (es : List CompDS) : List String :=
  (es.filter (fun e => decide (e.strategy = "STEP"))).map (fun e => e.dsname)

/-- The component union iterated over by the search loop:
`cmps = list(set(nexuscomponents) | set(self.__availableComponents()))`.
Python iterates a set; we keep the first occurrence of each name. -/
def searchCmps (nexuscomponents availableComps : List String) : List String :=
  (nexuscomponents ++ availableComps).dedup

/-- Whether component `cp` supplies datasource `ds` for this run: the
component fetch succeeded (`catalog cp = some es`; `none` models the
`clientSources` exception, after which `dss = []`), `ds` is one of its
STEP datasources, and `ds` is required
(`cdss = list(set(dss) & set(datasources))`). -/
def compHits (catalog : String → Option (List CompDS)) (datasources : List String)
    (cp ds : String) : Bool :=
  match catalog cp with
  | none => false
  | some es => decide (ds ∈ stepNames es) && decide (ds ∈ datasources)

/-- Value of the `dsFound` dictionary at key `ds`: every component of
the search loop that recorded a hit `dsFound[ds].append(cp)`. -/
def dsFoundComps (catalog : String → Option (List CompDS)) (datasources : List String)
    (cmps : List String) (ds : String) : List String :=
  cmps.filter (fun cp => compHits catalog datasources cp ds)

/-- Keys of the `dsFound` dictionary: required datasources with at least
one component hit. -/
def dsFoundKeys (catalog : String → Option (List CompDS)) (datasources : List String)
    (cmps : List String) : List String :=
  datasources.filter (fun ds => decide (dsFoundComps catalog datasources cmps ds ≠ []))

/-- Value of the `cpReq` dictionary at key `cp`: the required STEP
datasources supplied by `cp` (`cpReq[cp].append(ds)` for each
`ds` in `cdss`; `cdss` is a Python set intersection, hence deduplicated). -/
def cpReqList (catalog : String → Option (List CompDS)) (datasources : List String)
    (cp : String) : List String :=
  match catalog cp with
  | none => []
  | some es => (stepNames es).dedup.filter (fun ds => decide (ds ∈ datasources))

/-- Record keys declared by the successfully fetched components:
`keyFound.update(set([ds["record"] for ds in cpdss]))`. -/
def keyFound (catalog : String → Option (List CompDS)) (cmps : List String) : List String :=
  cmps.foldl (fun acc cp =>
    match catalog cp with
    | none => acc
    | some es => acc ++ es.map (fun e => e.record)) []

/-- `missingKeys = set(userkeys) - keyFound` (membership-accurate model
of the Python set difference). -/
def missingKeys (catalog : String → Option (List CompDS)) (cmps userkeys : List String) :
    List String :=
  userkeys.dedup.filter (fun k => decide (k ∉ keyFound catalog cmps))

/-- The `dsNotFound` result list of `__searchDataSources`: the loop runs
over `datasources` extended with the dynamic data sources and appends
`ds` when it has no hit at all, or - only when `cfm`
(ComponentsFromMntGrp) is false - when none of its hits is a
user/mandatory (`nexuscomponents`) component. -/
def dsNotFound (catalog : String → Option (List CompDS))
    (datasources dynamicDataSources : List String)
    (nexuscomponents availableComps : List String) (cfm : Bool) : List String :=
  let cmps := searchCmps nexuscomponents availableComps
  (datasources ++ dynamicDataSources).filter (fun ds =>
    let found := dsFoundComps catalog datasources cmps ds
    decide (found = []) ||
      (!cfm && decide (found.filter (fun cp => decide (cp ∈ nexuscomponents)) = [])))

/-- Result triple of `__searchDataSources`. -/
structure SearchResult where
  notFound : List String
  cpReq : String → List String
  missing : List String

/-- Full model of `NXS_FileRecorder.__searchDataSources`: returns
`(dsNotFound, cpReq, missingKeys)`. -/
def searchDataSources (catalog : String → Option (List CompDS))
    (datasources dynamicDataSources : List String)
    (nexuscomponents availableComps : List String) (cfm : Bool)
    (userkeys : List String) : SearchResult :=
  let cmps := searchCmps nexuscomponents availableComps
  { notFound := dsNotFound catalog datasources dynamicDataSources
      nexuscomponents availableComps cfm
    cpReq := fun cp => if cp ∈ cmps then cpReqList catalog datasources cp else []
    missing := missingKeys catalog cmps userkeys }

/-- Concrete catalog for the C1 counterexample: one well-defined
component "base" supplying STEP datasource "mot1"; every other fetch
fails. -/
def c1cat : String → Option (List CompDS) := fun cp =>
  if cp = "base" then some [⟨"mot1", "STEP", "mot1key"⟩] else none

/-! ## Dynamic-component lifetime (`NXS_FileRecorder`) -/

/-- Abstract view of one external call made by `NXS_FileRecorder` during
a run, keeping only what matters for the transient dynamic component:
`createDyn` is `__createDynamicComponent` (registers the component with
the settings service), `removeDyn` is `__removeDynamicComponent`
(unregisters it), `other` is any of the remaining service/writer calls. -/
inductive NXOp
  | createDyn
  | removeDyn
  | other
deriving DecidableEq

/-- Effect of one executed call on the service state (`true` iff the
transient dynamic component is registered). -/
def execOp : NXOp → Bool → Bool
  | .createDyn, _ => true
  | .removeDyn, _ => false
  | .other, s => s

/-- Run a list of calls starting at call index `i`; `fail j = true` makes
the j-th call raise before taking effect. `removeDynamicComponent` is
modelled as always succeeding. On a raise the state reached so far is
carried in the error. -/
def runOps (fail : Nat → Bool) : Nat → List NXOp → Bool → Except Bool Bool
  | _, [], st => .ok st
  | i, o :: rest, st =>
    if fail i ∧ o ≠ NXOp.removeDyn then .error st
    else runOps fail (i + 1) rest (execOp o st)

/-- The `except: self.__removeDynamicComponent(); raise` handler wrapped
around `_startRecordList` and `_writeRecord`. -/
def guardRemove : Except Bool Bool → Except Bool Bool
  | .ok st => .ok st
  | .error st => .error (execOp .removeDyn st)

/-- The `try: ... finally: self.__removeDynamicComponent()` of
`_endRecordList`. -/
def finallyRemove : Except Bool Bool → Except Bool Bool
  | .ok st => .ok (execOp .removeDyn st)
  | .error st => .error (execOp .removeDyn st)

/-- External calls of `NXS_FileRecorder._startRecordList`, in program
order: `__setNexusDevices`; `__setFileName`/`getEnviron`; the catalog
queries of `__createConfiguration` (`__collectAliases`,
`mandatoryComponents`, `__searchDataSources`); `__createDynamicComponent`;
`createConfiguration`; the explicit `__removeDynamicComponent` at the end
of the configuration phase; then `Init`, `fileName`, `openFile`,
`xmlsettings`, `jsonrecord`, `openEntry` on the writer device. -/
def nxsStartOps : List NXOp :=
  [.other, .other, .other, .createDyn, .other, .removeDyn,
   .other, .other, .other, .other, .other, .other]

/-- External calls of `NXS_FileRecorder._writeRecord`: `jsonrecord` and
`record` on the writer device. -/
def nxsWriteOps : List NXOp := [.other, .other]

/-- External calls of `NXS_FileRecorder._endRecordList`: `jsonrecord`,
`closeEntry`, `closeFile` on the writer device. -/
def nxsEndOps : List NXOp := [.other, .other, .other]

/-- Model of `_startRecordList`: run its calls under the
remove-and-reraise handler, starting with no dynamic component
registered. -/
def nxsStart (fail : Nat → Bool) : Except Bool Bool :=
  guardRemove (runOps fail 0 nxsStartOps false)

/-- Model of `_writeRecord`. -/
def nxsWrite (fail : Nat → Bool) (st : Bool) : Except Bool Bool :=
  guardRemove (runOps fail 0 nxsWriteOps st)

/-- Model of `_endRecordList`. -/
def nxsEnd (fail : Nat → Bool) (st : Bool) : Except Bool Bool :=
  finallyRemove (runOps fail 0 nxsEndOps st)

/-- A sequence of `writeRecord` calls, stopping at the first raised
exception (the run driver stops the run when a write fails). -/
def nxsWrites (fails : List (Nat → Bool)) (st : Bool) : Except Bool Bool :=
  match fails with
  | [] => .ok st
  | f :: fs =>
    match nxsWrite f st with
    | .ok st' => nxsWrites fs st'
    | .error st' => .error st'

/-- A full recorder run: `start`, then the writes, then `end`, each step
skipped when an earlier one raised. -/
def nxsSession (failStart : Nat → Bool) (failWrites : List (Nat → Bool))
    (failEnd : Nat → Bool) : Except Bool Bool :=
  match nxsStart failStart with
  | .error st => .error st
  | .ok st1 =>
    match nxsWrites failWrites st1 with
    | .error st => .error st
    | .ok st2 => nxsEnd failEnd st2

/-- Registration state in which a run leaves the configuration service,
whether it completed (`ok`) or raised (`error`). -/
def finalSt : Except Bool Bool → Bool
  | .ok st => st
  | .error st => st

/-! ## Entry creation (`NXscan_FileRecorder._startRecordList`) -/

/-- Exceptions of the entry-creation step: `nexusError` is the NAPI
`NeXusError`, `runtimeError` the `RuntimeError` raised on a duplicate
entry. -/
inductive NxError
  | nexusError
  | runtimeError (msg : String)
deriving DecidableEq

/-- `fd.makegroup(name, "NXentry")` on a file whose existing top-level
entries are `entries`: raises `NeXusError` when the group already
exists, otherwise creates it. -/
def makegroup (entries : List String) (name : String) : Except NxError (List String) :=
  if name ∈ entries then .error .nexusError else .ok (entries ++ [name])

/-- `self.entryname = "entry%d" % serialno`. -/
def entryName (serialno : Nat) : String := "entry" ++ toString serialno

/-- Text of the duplicate-entry `RuntimeError` (first line of the
message built by `_startRecordList`). -/
def duplicateEntryMsg (ename filename : String) : String :=
  "\"" ++ ename ++ "\" already exists in " ++ filename ++
    ". To prevent data corruption the macro will be aborted."

/-- Entry-creation step of `NXscan_FileRecorder._startRecordList`: try
`makegroup`; on `NeXusError`, if the entry name is among the file's
entries raise the fatal duplicate-entry `RuntimeError`, otherwise
re-raise. Returns the file's entry list after the step. -/
def nxscanStartEntry (entries : List String) (serialno : Nat) (filename : String) :
    Except NxError (List String) :=
  let ename := entryName serialno
  match makegroup entries ename with
  | .ok es => .ok es
  | .error e =>
    if ename ∈ entries then .error (.runtimeError (duplicateEntryMsg ename filename))
    else .error e

/-! ## Flat-table writer (`SPEC_FileRecorder`) -/

/-- Descriptor metadata used by the recorders (one element of
`env['datadesc']`). Channel values are modelled throughout by their
Python `str()` rendering. -/
structure ColumnDesc where
  name : String
  label : String
  dtype : String
  shape : List Nat
deriving DecidableEq

/-- Lookup in a record's data dictionary (`record.data.get(c)`):
`none` models both a missing key and a `None` value, which
`_writeRecord` treats alike. -/
def lookupStr (data : List (String × String)) (k : String) : Option String :=
  (data.find? (fun p => decide (p.1 = k))).map (fun p => p.2)

/-- Column selection of `SPEC_FileRecorder._startRecordList`: a
descriptor becomes a column iff `not dims or (dims == 1 and
e.shape[0] == 1)`, i.e. its shape is `[]` or `[1]`. -/
def spec_scalarNames (datadesc : List ColumnDesc) : List String :=
  (datadesc.filter (fun e => decide (e.shape = [] ∨ e.shape = [1]))).map (fun e => e.name)

/-- Stringified record values in column order, a missing value rendered
as `str(float('nan')) = "nan"`. -/
def spec_recordValues (names : List String) (data : List (String × String)) : List String :=
  names.map (fun c => (lookupStr data c).getD "nan")

/-- `SPEC_FileRecorder._writeRecord`: appends to the file exactly one
line, the space-joined values followed by a newline. -/
def spec_writeRecordStr (names : List String) (data : List (String × String))
    (file : String) : String :=
  file ++ String.intercalate " " (spec_recordValues names data) ++ "\n"

/-- Number of newline characters in a string. -/
def countNl (s : String) : Nat := s.toList.count '\n'

/-- Flat-table body produced by a run's successive `writeRecord` calls. -/
def spec_body (names : List String) (records : List (List (String × String))) : String :=
  records.foldl (fun file r => spec_writeRecordStr names r file) ""

/-! ## Output-directory creation (`SPEC_FileRecorder.setFileName`) -/

/-- `SPEC_FileRecorder.setFileName`: when the directory is missing, try
`os.makedirs`; a failure is swallowed (`except: self.filename = None;
return`). Returns the resulting `filename` attribute and whether
`makedirs` was attempted. `FIO_FileRecorder.setFileName` has the same
directory-creation logic. -/
def spec_setFileName (dirExists mkdirOk : Bool) (filename : String) :
    Option String × Bool :=
  if dirExists then (some filename, false)
  else if mkdirOk then (some filename, true)
  else (none, true)

/-- `SPEC_FileRecorder._startRecordList` guard: with `filename` unset the
method returns before writing anything; otherwise it appends the scan
header (whose text is irrelevant to the directory-creation claim and is
passed in abstractly). -/
def spec_startContent (filename : Option String) (header : String) (file : String) : String :=
  match filename with
  | none => file
  | some _ => file ++ header

/-- `SPEC_FileRecorder._writeRecord` guard: with `filename` unset the
call returns without touching the file. -/
def spec_writeRecordGuarded (filename : Option String) (names : List String)
    (data : List (String × String)) (file : String) : String :=
  match filename with
  | none => file
  | some _ => spec_writeRecordStr names data file

/-- A whole flat-table run (setFileName, start, writes) returning the
file content it produces; the embedding is total because the Python
code signals no error on any of these paths. -/
def spec_session (dirExists mkdirOk : Bool) (fn header : String) (names : List String)
    (records : List (List (String × String))) : String :=
  let filename := (spec_setFileName dirExists mkdirOk fn).1
  records.foldl (fun file r => spec_writeRecordGuarded filename names r file)
    (spec_startContent filename header "")

/-- `FIO_FileRecorder._startRecordList` up to its first write: the
method returns early only when `base_filename` is `None`; otherwise it
re-runs `setFileName` (same directory logic as the flat-table writer;
the serial-number formatting of the name is orthogonal here) and then
opens `self.filename` for writing. There is no `filename is None` guard
in this method, so after a swallowed directory-creation failure
`open(None, 'w')` raises a `TypeError` to the caller before anything is
written; on success the comment header is the first content written.
Returns the content written by the start call, or the raised error. -/
def fio_startRecordList (baseFilename : Option String) (dirExists mkdirOk : Bool)
    (header : String) : Except String String :=
  match baseFilename with
  | none => .ok ""
  | some fn =>
    match (spec_setFileName dirExists mkdirOk fn).1 with
    | none => .error "TypeError"
    | some _ => .ok header

/-! ## Sectioned-ASCII writer (`FIO_FileRecorder`) -/

/-- Header line `" Col %d %s %s" % (i, label, dType)` of the FIO data
section (modelled without the trailing newline written by `fd.write`). -/
def mkColLine (i : Nat) (label dtypeName : String) : String :=
  " Col " ++ toString i ++ " " ++ label ++ " " ++ dtypeName

/-- Numeric kind of a column: `dType = 'FLOAT'; if col.dtype ==
'float64': dType = 'DOUBLE'`. -/
def fioColKind (dtype : String) : String :=
  if dtype = "float64" then "DOUBLE" else "FLOAT"

/-- Loop of `FIO_FileRecorder._startRecordList` over `envRec['datadesc']`:
skips the `point_nb` and `timestamp` columns, emits one `Col` line per
remaining descriptor and threads the running column index. -/
def fio_colLinesAux : Nat → List ColumnDesc → List String × Nat
  | i, [] => ([], i)
  | i, d :: ds =>
    if d.name = "point_nb" ∨ d.name = "timestamp" then fio_colLinesAux i ds
    else
      let rest := fio_colLinesAux (i + 1) ds
      (mkColLine i d.label (fioColKind d.dtype) :: rest.1, rest.2)

/-- Data-section column description of `FIO_FileRecorder._startRecordList`:
the per-descriptor `Col` lines followed by the synthetic trailing
`timestamp DOUBLE` column. -/
def fio_colLines (datadesc : List ColumnDesc) : List String :=
  let r := fio_colLinesAux 1 datadesc
  r.1 ++ [mkColLine r.2 "timestamp" "DOUBLE"]

/-- Descriptors kept by the claim's predicate over the `Col` loop: all
but `point_nb` and `timestamp` (note: no shape condition). -/
def fioKeepCol (d : ColumnDesc) : Bool :=
  decide (d.name ≠ "point_nb" ∧ d.name ≠ "timestamp")

/-- Reference rendering of consecutive `Col` lines starting at index
`i`, used to characterize `fio_colLines`. -/
def enumColLines (i : Nat) : List ColumnDesc → List String
  | [] => []
  | d :: ds => mkColLine i d.label (fioColKind d.dtype) :: enumColLines (i + 1) ds

/-- `self.ctNames` as computed by `FIO_FileRecorder._startRecordList`:
names of the descriptors whose shape length differs from 1 (shape
length 1 marks an MCA, written to sidecar files instead). -/
def fio_ctNames (datadesc : List ColumnDesc) : List String :=
  (datadesc.filter (fun e => decide (e.shape.length ≠ 1))).map (fun e => e.name)

/-- Value strings of one FIO body line, in `_writeRecord` order: the
`ctNames` minus `timestamp`/`point_nb`, each via
`str(record.data.get(c, nan))`, then the timestamp value last. -/
def fio_bodyValues (ctNames : List String) (data : List (String × String)) : List String :=
  (ctNames.filter (fun c => decide (c ≠ "timestamp" ∧ c ≠ "point_nb"))).map
      (fun c => (lookupStr data c).getD "nan")
    ++ [(lookupStr data "timestamp").getD "nan"]

/-- One FIO body line as written: each value preceded by a blank, a
newline at the end. -/
def fio_bodyLine (ctNames : List String) (data : List (String × String)) : String :=
  String.join ((fio_bodyValues ctNames data).map (fun v => " " ++ v)) ++ "\n"

/-! ## Dataset creation and compression (`BaseNAPI_FileRecorder._makedata`) -/

/-- `BaseNAPI_FileRecorder._makedata` reduced to its compression
decision: `true` iff the dataset is created through `compmakedata`.
The code takes the plain `makedata` branch iff
`shape is None or comprank < 0 or (len(shape) < comprank)`, with
`comprank` defaulting to `self._dataCompressionRank`. -/
def makedataCompressed (shape : Option (List Nat)) (comprank : Option Int)
    (dataCompressionRank : Int) : Bool :=
  let cr := comprank.getD dataCompressionRank
  match shape with
  | none => false
  | some s => decide (¬ (cr < 0 ∨ (s.length : Int) < cr))

/-! ## Per-record slab writes (`NXscan_FileRecorder._writeRecord`) -/

/-- A channel value as found in `record.data`: the Python `None`, a bare
scalar (no `shape` attribute), or a numpy array carrying a dtype and a
shape. -/
inductive PyData
  | pynone
  | scalar (dtype : String)
  | array (dtype : String) (shape : List Nat)
deriving DecidableEq

/-- One `putslab` call as issued by `NXscan_FileRecorder._writeRecord`:
target dataset, slab offset and shape, the dtype of the written block,
whether the block was zero-filled (value was `None`) and whether an
implicit `astype` cast was applied (with its debug notice). -/
structure Slab where
  label : String
  offset : List Nat
  slabshape : List Nat
  dtype : String
  zerofilled : Bool
  casted : Bool
deriving DecidableEq

/-- Body of the `_writeRecord` loop for one descriptor present in the
record: `None` becomes `numpy.zeros(dd.shape, dd.dtype)`; a bare scalar
becomes `numpy.array([data], dtype=dd.dtype)` (shape `(1,)`); an array
with a mismatched dtype is cast via `astype` with a debug notice. The
slab offset is `[record.recordno] + [0]*len(dd.shape)` and the slab
shape `[1] + numpy.shape(data)`. -/
def writeSlab (dd : ColumnDesc) (recno : Nat) (v : PyData) : Slab :=
  match v with
  | .pynone =>
    { label := dd.label, offset := recno :: List.replicate dd.shape.length 0,
      slabshape := 1 :: dd.shape, dtype := dd.dtype, zerofilled := true, casted := false }
  | .scalar _ =>
    { label := dd.label, offset := recno :: List.replicate dd.shape.length 0,
      slabshape := [1, 1], dtype := dd.dtype, zerofilled := false, casted := false }
  | .array dt sh =>
    { label := dd.label, offset := recno :: List.replicate dd.shape.length 0,
      slabshape := 1 :: sh, dtype := dd.dtype, zerofilled := false,
      casted := decide (dt ≠ dd.dtype) }

/-- `NXscan_FileRecorder._writeRecord`: one slab per descriptor whose
name is a key of `record.data`; descriptors without a key only get a
debug message. -/
def nxscan_writeRecord (datadesc : List ColumnDesc) (recno : Nat)
    (data : String → Option PyData) : List Slab :=
  datadesc.filterMap (fun dd => (data dd.name).map (writeSlab dd recno))

/-! ## Unsupported element types (`NXscan_FileRecorder._startRecordList`,
`SPEC_FileRecorder._preparePreScanSnapshot`) -/

/-- The `supported_dtypes` tuple shared by `SPEC_FileRecorder` and the
NeXus recorders. -/
def supported_dtypes : List String :=
  ["float32", "float64", "int8", "int16", "int32", "int64",
   "uint8", "uint16", "uint32", "uint64"]

/-- `BaseNEXUS_FileRecorder.sanitizeName`: prefix an underscore when the
name starts with a digit, replace blanks by underscores, drop the
remaining non-alphanumeric characters (an empty name is returned
unchanged). -/
def sanitizeName (name : String) : String :=
  let cs := name.toList
  let cs := if (cs.headD '_').isDigit then '_' :: cs else cs
  String.mk ((cs.map (fun c => if c = ' ' then '_' else c)).filter
    (fun c => c.isAlphanum || c = '_'))

/-- The per-descriptor `clone`-and-adapt step of
`NXscan_FileRecorder._startRecordList`: sanitize the label and store
`bool` channels as `int8` (with a debug message). -/
def nxscan_convertDesc (dd : ColumnDesc) : ColumnDesc :=
  { dd with label := sanitizeName dd.label,
            dtype := if dd.dtype = "bool" then "int8" else dd.dtype }

/-- The `datadesc` filtering loop of `NXscan_FileRecorder._startRecordList`:
keeps the adapted descriptors with a supported dtype, and logs one
warning (second component: the warned channel names) per dropped
descriptor. -/
def nxscan_filterDesc : List ColumnDesc → List ColumnDesc × List String
  | [] => ([], [])
  | dd :: rest =>
    let dd' := nxscan_convertDesc dd
    let r := nxscan_filterDesc rest
    if dd'.dtype ∈ supported_dtypes then (dd' :: r.1, r.2) else (r.1, dd.name :: r.2)

/-- One entry of `env['preScanSnapShot']`; the pre-scan value is
modelled by its rendering. -/
structure SnapDesc where
  label : String
  dtype : String
  shape : List Nat
  value : String
deriving DecidableEq

/-- Selection loop of `SPEC_FileRecorder._preparePreScanSnapshot`: skip
(with an info message) the non-scalar items, then the items with an
unsupported dtype; collect labels and values of the rest. Returns
((labels, values), logged labels). -/
def spec_snapshotFilter : List SnapDesc → (List String × List String) × List String
  | [] => (([], []), [])
  | d :: rest =>
    let r := spec_snapshotFilter rest
    if d.shape.length > 0 then ((r.1.1, r.1.2), d.label :: r.2)
    else if d.dtype ∈ supported_dtypes then
      ((d.label :: r.1.1, d.value :: r.1.2), r.2)
    else ((r.1.1, r.1.2), d.label :: r.2)

/-- `taurus.core.util.containers.chunks`: split a list into consecutive
chunks of `n` items (the last chunk may be shorter). -/
def chunksOf {α : Type} : Nat → List α → List (List α)
  | _, [] => []
  | 0, _ :: _ => []
  | n + 1, x :: xs => (x :: xs).take (n + 1) :: chunksOf (n + 1) (xs.drop n)
termination_by _ l => l.length
decreasing_by
  simp [List.length_drop]
  omega

/-- `SPEC_FileRecorder._preparePreScanSnapshot`: the kept labels and
values, each split into chunks of 8. -/
def spec_preparePreScanSnapshot (snap : List SnapDesc) :
    List (List String) × List (List String) :=
  let r := spec_snapshotFilter snap
  (chunksOf 8 r.1.1, chunksOf 8 r.1.2)

/-! ## Back-end selection (the `FileRecorder` factory function) -/

/-- A recorder class the factory can return. -/
inductive RKlass
  | nxscanRec
  | fioRec
  | nxsRec
  | specRec
  | customRec (name : String)
deriving DecidableEq

/-- An entry of `globals()`: the object it names and whether
`issubclass(obj, BaseFileRecorder)` holds. -/
structure GEntry where
  klass : RKlass
  isRecorderSubclass : Bool
deriving DecidableEq

/-- `NXscan_FileRecorder.formats.values()` (inherited from
`BaseNEXUS_FileRecorder`). -/
def nxscanFormats : List String := [".h5", ".h4", ".xml"]

/-- `FIO_FileRecorder.formats.values()`. -/
def fioFormats : List String := [".fio"]

/-- `NXS_FileRecorder.formats.values()`. -/
def nxsFormats : List String := [".nxs"]

/-- The `elif` chain of the factory on the (already lowercased,
defaulted) extension. -/
def extSelect (ext : String) : RKlass :=
  if ext ∈ nxscanFormats then .nxscanRec
  else if ext ∈ fioFormats then .fioRec
  else if ext ∈ nxsFormats then .nxsRec
  else .specRec

/-- Characters of the path's basename (everything after the last `/`). -/
def basenameChars (s : List Char) : List Char :=
  (s.reverse.takeWhile (fun c => c ≠ '/')).reverse

/-- `os.path.splitext(filename)[1]`: the extension starts at the last
dot of the basename, provided some character of the basename strictly
before that dot is not itself a dot (so `.bashrc` has no extension). -/
def splitextExt (s : String) : String :=
  let r := (basenameChars s.toList).reverse
  let afterDot := r.takeWhile (fun c => c ≠ '.')
  if afterDot.length = r.length then ""
  else if (r.drop (afterDot.length + 1)).any (fun c => c ≠ '.') then
    String.mk ('.' :: afterDot.reverse)
  else ""

/-- ASCII lowercasing of `str.lower()` (character-wise, so that the
kernel can evaluate it). -/
def lowerAscii (s : String) : String :=
  String.mk (s.toList.map Char.toLower)

/-- `ext = os.path.splitext(filename)[1].lower() or '.spec'`. -/
def extOf (filename : String) : String :=
  let e := lowerAscii (splitextExt filename)
  if e = "" then ".spec" else e

/-- The `FileRecorder` factory: `hintValue` is
`getattr(macro, 'hints', {}).get('FileRecorder', None)` and `globalsMap`
models `globals().get(...)`. A hint naming a global subclass of
`BaseFileRecorder` wins; otherwise the extension chain decides. -/
def fileRecorderSelect (hintValue : Option String)
    (globalsMap : String → Option GEntry) (filename : String) : RKlass :=
  let ext := extOf filename
  match hintValue.bind globalsMap with
  | some g => if g.isRecorderSubclass then g.klass else extSelect ext
  | none => extSelect ext

/-- Concrete record data for the C8 witness: only channel "mot1" is
present, carrying a float32 array where the descriptor declares
float64. -/
def c8data : String → Option PyData := fun n =>
  if n = "mot1" then some (PyData.array "float32" []) else none

/-- Concrete `globals()` for the C10 witness: one known recorder
subclass under the name "NXxas_FileRecorder". -/
def c10globals : String → Option GEntry := fun n =>
  if n = "NXxas_FileRecorder" then some ⟨RKlass.customRec "NXxas_FileRecorder", true⟩
  else none

/-! ## Theorems -/

theorem compHits_iff (catalog : String → Option (List CompDS)) (datasources : List String)
    (cp ds : String) :
    compHits catalog datasources cp ds = true ↔
      ∃ es, catalog cp = some es ∧ ds ∈ stepNames es ∧ ds ∈ datasources := by
  unfold compHits
  cases h : catalog cp with
  | none => simp
  | some es => simp

theorem runOps_ok_foldl (fail : Nat → Bool) :
    ∀ (ops : List NXOp) (i : Nat) (st st' : Bool),
      runOps fail i ops st = .ok st' →
        st' = ops.foldl (fun s o => execOp o s) st := by
  intro ops
  induction ops with
  | nil =>
    intro i st st' h
    simp only [runOps] at h
    cases h
    rfl
  | cons o rest ih =>
    intro i st st' h
    unfold runOps at h
    by_cases hf : fail i ∧ o ≠ NXOp.removeDyn
    · rw [if_pos hf] at h
      cases h
    · rw [if_neg hf] at h
      simpa using ih (i + 1) (execOp o st) st' h

theorem nxsStart_cases (fail : Nat → Bool) :
    nxsStart fail = .ok false ∨ nxsStart fail = .error false := by
  unfold nxsStart guardRemove
  cases hr : runOps fail 0 nxsStartOps false with
  | ok s =>
    left
    have hs := runOps_ok_foldl fail nxsStartOps 0 false s hr
    rw [hs]
    rfl
  | error s =>
    right
    rfl

theorem nxsWrite_false (fail : Nat → Bool) :
    nxsWrite fail false = .ok false ∨ nxsWrite fail false = .error false := by
  unfold nxsWrite guardRemove
  cases hr : runOps fail 0 nxsWriteOps false with
  | ok s =>
    left
    have hs := runOps_ok_foldl fail nxsWriteOps 0 false s hr
    rw [hs]
    rfl
  | error s =>
    right
    rfl

theorem nxsWrites_false :
    ∀ fails : List (Nat → Bool),
      nxsWrites fails false = .ok false ∨ nxsWrites fails false = .error false := by
  intro fails
  induction fails with
  | nil => left; rfl
  | cons f fs ih =>
    unfold nxsWrites
    rcases nxsWrite_false f with h | h <;> rw [h]
    · exact ih
    · right; rfl

theorem finalSt_nxsEnd (fail : Nat → Bool) (st : Bool) :
    finalSt (nxsEnd fail st) = false := by
  unfold nxsEnd finallyRemove
  cases runOps fail 0 nxsEndOps st <;> rfl

/-- C2: over every failure schedule of the external calls, a full
`NXS_FileRecorder` run (`_startRecordList`, any number of
`_writeRecord`s, `_endRecordList`, stopping at the first raised
exception) leaves the configuration service with no transient dynamic
component registered - the handlers delete it before any failure
propagates, and the success path deletes it as well. -/
theorem C2_dynamic_component_lifetime (failStart failEnd : Nat → Bool)
    (failWrites : List (Nat → Bool)) :
    finalSt (nxsSession failStart failWrites failEnd) = false := by
  unfold nxsSession
  rcases nxsStart_cases failStart with hs | hs <;> simp only [hs]
  · rcases nxsWrites_false failWrites with hw | hw <;> simp only [hw]
    · exact finalSt_nxsEnd failEnd false
    · rfl
  · rfl

/-- C3: for a serial number whose entry name already exists in the
target file, `NXscan_FileRecorder._startRecordList` raises the fatal
duplicate-entry `RuntimeError` and leaves the file's entries unchanged;
for a fresh serial number it creates exactly the entry
`entry<serialno>`. -/
theorem C3_duplicate_entry_fatal (entries : List String) (serialno : Nat)
    (filename : String) :
    (entryName serialno ∈ entries →
      nxscanStartEntry entries serialno filename =
        .error (.runtimeError (duplicateEntryMsg (entryName serialno) filename))) ∧
    (entryName serialno ∉ entries →
      nxscanStartEntry entries serialno filename =
        .ok (entries ++ [entryName serialno])) := by
  constructor
  · intro h
    simp [nxscanStartEntry, makegroup, h]
  · intro h
    simp [nxscanStartEntry, makegroup, h]

theorem C3_duplicate_entry_fatal_witness :
    nxscanStartEntry ["entry3"] 3 "/data/f.h5" =
      .error (.runtimeError (duplicateEntryMsg (entryName 3) "/data/f.h5")) ∧
    nxscanStartEntry ["entry3"] 4 "/data/f.h5" = .ok (["entry3"] ++ [entryName 4]) :=
  ⟨(C3_duplicate_entry_fatal ["entry3"] 3 "/data/f.h5").1 (by decide),
   (C3_duplicate_entry_fatal ["entry3"] 4 "/data/f.h5").2 (by decide)⟩

/-- C1 counterexample: with `ComponentsFromMntGrp = False` (the
restrict-to-user-components mode, and the configuration default), the
alias "mot1" is found - component "base" supplies it with STEP policy -
yet it is still returned among the unmatched datasources because "base"
is not a user/mandatory component; so `missing = required − foundAliases`
fails: here `required − foundAliases` is empty while `missing` is not. -/
theorem C1_counterexample :
    "mot1" ∈ dsNotFound c1cat ["mot1"] [] ["user1"] ["base"] false ∧
    "mot1" ∈ dsFoundKeys c1cat ["mot1"] (searchCmps ["user1"] ["base"]) ∧
    (["mot1"] : List String).filter
        (fun ds =>
          decide (ds ∉ dsFoundKeys c1cat ["mot1"] (searchCmps ["user1"] ["base"]))) = [] := by
  decide

theorem dsFoundComps_eq_nil_iff (catalog : String → Option (List CompDS))
    (datasources cmps : List String) (ds : String) :
    dsFoundComps catalog datasources cmps ds = [] ↔
      ∀ cp ∈ cmps, ¬ compHits catalog datasources cp ds = true := by
  unfold dsFoundComps
  exact List.filter_eq_nil_iff

theorem dsFound_excluded_iff (catalog : String → Option (List CompDS))
    (datasources cmps nexuscomponents : List String) (ds : String) :
    (dsFoundComps catalog datasources cmps ds).filter
        (fun cp => decide (cp ∈ nexuscomponents)) = [] ↔
      ∀ cp ∈ cmps, compHits catalog datasources cp ds = true →
        cp ∉ nexuscomponents := by
  rw [List.filter_eq_nil_iff]
  constructor
  · intro h cp hcp hhit hnx
    exact h cp (List.mem_filter.mpr ⟨hcp, hhit⟩) (by simpa using hnx)
  · intro h cp hcp
    obtain ⟨hcmps, hhit⟩ := List.mem_filter.mp hcp
    simpa using h cp hcmps hhit

/-- C1 (amended): the unmatched set returned by `__searchDataSources` is
exactly `required − foundAliases` together with - when
`ComponentsFromMntGrp` is false - the found aliases none of whose
supplying components is user/mandatory; and every found alias occurs in
some entry of the component-to-required-aliases map. -/
theorem C1_missing_and_found
    (catalog : String → Option (List CompDS))
    (datasources dynamicDataSources nexuscomponents availableComps userkeys : List String)
    (cfm : Bool) :
    (∀ ds,
      ds ∈ (searchDataSources catalog datasources dynamicDataSources nexuscomponents
          availableComps cfm userkeys).notFound ↔
        ds ∈ datasources ++ dynamicDataSources ∧
          (¬ (∃ cp ∈ searchCmps nexuscomponents availableComps,
                compHits catalog datasources cp ds = true) ∨
            (cfm = false ∧
              ∀ cp ∈ searchCmps nexuscomponents availableComps,
                compHits catalog datasources cp ds = true → cp ∉ nexuscomponents))) ∧
    (∀ ds,
      ds ∈ dsFoundKeys catalog datasources (searchCmps nexuscomponents availableComps) →
        ∃ cp ∈ searchCmps nexuscomponents availableComps,
          ds ∈ (searchDataSources catalog datasources dynamicDataSources nexuscomponents
              availableComps cfm userkeys).cpReq cp) := by
  constructor
  · intro ds
    show ds ∈ dsNotFound catalog datasources dynamicDataSources
        nexuscomponents availableComps cfm ↔ _
    unfold dsNotFound
    rw [List.mem_filter]
    simp only [Bool.or_eq_true, Bool.and_eq_true, Bool.not_eq_true', decide_eq_true_eq]
    constructor
    · rintro ⟨hmem, hcond⟩
      refine ⟨hmem, ?_⟩
      rcases hcond with hnil | ⟨hcfm, hexcl⟩
      · left
        rintro ⟨cp, hcp, hhit⟩
        exact (dsFoundComps_eq_nil_iff catalog datasources _ ds).mp hnil cp hcp hhit
      · right
        exact ⟨hcfm,
          (dsFound_excluded_iff catalog datasources _ nexuscomponents ds).mp hexcl⟩
    · rintro ⟨hmem, hcond⟩
      refine ⟨hmem, ?_⟩
      rcases hcond with hno | ⟨hcfm, hexcl⟩
      · left
        exact (dsFoundComps_eq_nil_iff catalog datasources _ ds).mpr
          (fun cp hcp hhit => hno ⟨cp, hcp, hhit⟩)
      · right
        exact ⟨hcfm,
          (dsFound_excluded_iff catalog datasources _ nexuscomponents ds).mpr hexcl⟩
  · intro ds hds
    unfold dsFoundKeys at hds
    rw [List.mem_filter, decide_eq_true_eq] at hds
    obtain ⟨hreq, hne⟩ := hds
    obtain ⟨cp, hcp⟩ := List.exists_mem_of_ne_nil _ hne
    obtain ⟨hcmps, hhit⟩ := List.mem_filter.mp hcp
    obtain ⟨es, hes, hstep, hdss⟩ := (compHits_iff catalog datasources cp ds).mp hhit
    refine ⟨cp, hcmps, ?_⟩
    show ds ∈ (if cp ∈ searchCmps nexuscomponents availableComps then
        cpReqList catalog datasources cp else [])
    rw [if_pos hcmps]
    unfold cpReqList
    rw [hes]
    exact List.mem_filter.mpr ⟨List.mem_dedup.mpr hstep, by simpa using hdss⟩

theorem C1_missing_and_found_witness :
    ("mot1" ∈ (searchDataSources c1cat ["mot1"] [] ["user1"] ["base"] false []).notFound) ∧
    (∃ cp ∈ searchCmps ["user1"] ["base"],
      "mot1" ∈ (searchDataSources c1cat ["mot1"] [] ["user1"] ["base"] false []).cpReq cp) :=
  ⟨((C1_missing_and_found c1cat ["mot1"] [] ["user1"] ["base"] [] false).1 "mot1").mpr
      ⟨by decide, Or.inr ⟨rfl, by decide⟩⟩,
   (C1_missing_and_found c1cat ["mot1"] [] ["user1"] ["base"] [] false).2 "mot1" (by decide)⟩

/-- C4 counterexample: when the output directory cannot be created, the
`except` clause of `SPEC_FileRecorder.setFileName` swallows the failure
- the embedding is a total function, nothing is raised to the caller -
and a subsequent run writes neither header nor record: the file stays
empty although the same `writeRecord` with an enabled recorder would
have appended "0.0\n"; the data is discarded silently. -/
theorem C4_counterexample :
    (spec_setFileName false false "/a/b.spec").1 = none ∧
    spec_session false false "/a/b.spec" "#S 1 scan\n" ["mot1"] [[("mot1", "0.0")]] = "" ∧
    spec_writeRecordStr ["mot1"] [("mot1", "0.0")] "" = "0.0\n" := by
  refine ⟨rfl, rfl, ?_⟩
  rfl

theorem spec_session_disabled (names : List String) :
    ∀ (records : List (List (String × String))) (file : String),
      records.foldl (fun f r => spec_writeRecordGuarded none names r f) file = file := by
  intro records
  induction records with
  | nil => intro file; rfl
  | cons r rs ih => intro file; exact ih file

/-- C4 (amended): in both text back-ends directory creation is
create-if-missing (`makedirs` is attempted exactly when the directory
is absent) and the `makedirs` failure itself is swallowed inside
`setFileName` (`filename = None`, nothing raised there); from that
point the two back-ends diverge: the flat-table (SPEC) recorder writes
no header and every subsequent `writeRecord` of the run is a silent
no-op, so the run's data is silently not persisted and nothing reaches
the caller; the sectioned-ASCII (FIO) recorder's start, which lacks a
`filename is None` guard, raises a `TypeError` from `open(None, 'w')` -
aborting the run before any header or record is written. -/
theorem C4_directory_creation (dirExists mkdirOk : Bool) (fn header : String)
    (names : List String) (records : List (List (String × String))) :
    ((spec_setFileName dirExists mkdirOk fn).2 = !dirExists) ∧
    (dirExists = true ∨ mkdirOk = true →
      (spec_setFileName dirExists mkdirOk fn).1 = some fn ∧
        fio_startRecordList (some fn) dirExists mkdirOk header = .ok header) ∧
    (dirExists = false → mkdirOk = false →
      (spec_setFileName dirExists mkdirOk fn).1 = none ∧
        spec_session dirExists mkdirOk fn header names records = "" ∧
        fio_startRecordList (some fn) dirExists mkdirOk header = .error "TypeError") := by
  refine ⟨?_, ?_, ?_⟩
  · cases dirExists <;> cases mkdirOk <;> rfl
  · rintro (h | h) <;> subst h
    · exact ⟨rfl, rfl⟩
    · cases dirExists <;> exact ⟨rfl, rfl⟩
  · rintro h h'
    subst h; subst h'
    refine ⟨rfl, ?_, rfl⟩
    unfold spec_session
    exact spec_session_disabled names records ""

theorem C4_directory_creation_witness :
    ((spec_setFileName true false "/a/b.fio").1 = some "/a/b.fio" ∧
      fio_startRecordList (some "/a/b.fio") true false "! header\n" = .ok "! header\n") ∧
    ((spec_setFileName false false "/a/b.fio").1 = none ∧
      spec_session false false "/a/b.fio" "! header\n" ["m"] [[("m", "1.0")]] = "" ∧
      fio_startRecordList (some "/a/b.fio") false false "! header\n" = .error "TypeError") :=
  ⟨(C4_directory_creation true false "/a/b.fio" "! header\n" ["m"] [[("m", "1.0")]]).2.1
      (Or.inl rfl),
   (C4_directory_creation false false "/a/b.fio" "! header\n" ["m"] [[("m", "1.0")]]).2.2
      rfl rfl⟩

/-- C5: each `SPEC_FileRecorder._writeRecord` call appends exactly one
newline-terminated line holding the stringified values of the selected
(scalar) columns, space-joined in descriptor order with missing values
rendered "nan"; and on the spec's two-descriptor scenario the body is
exactly "0.0 10.5" then "1.0 11.2". -/
theorem C5_flat_table_body :
    (∀ (names : List String) (data : List (String × String)) (file : String),
      spec_writeRecordStr names data file =
        file ++ String.intercalate " "
          (names.map (fun c => (lookupStr data c).getD "nan")) ++ "\n") ∧
    spec_scalarNames [⟨"mot1", "mot1", "float64", []⟩, ⟨"det1", "det1", "float64", []⟩] =
      ["mot1", "det1"] ∧
    spec_body ["mot1", "det1"]
        [[("mot1", "0.0"), ("det1", "10.5")], [("mot1", "1.0"), ("det1", "11.2")]] =
      "0.0 10.5\n1.0 11.2\n" ∧
    countNl (spec_body ["mot1", "det1"]
        [[("mot1", "0.0"), ("det1", "10.5")], [("mot1", "1.0"), ("det1", "11.2")]]) = 2 := by
  exact ⟨fun names data file => rfl, by decide, by decide, by decide⟩

/-- C6 counterexample: a spectrum (MCA) descriptor of shape [5] is not
scalar, yet the FIO data-section header contains a `Col` line for it -
the header loop runs over all of `datadesc` (minus `point_nb` and
`timestamp`) with no shape restriction. -/
theorem C6_counterexample :
    mkColLine 1 "mca1" "FLOAT" ∈ fio_colLines [⟨"exp/mca1", "mca1", "float32", [5]⟩] ∧
    ([⟨"exp/mca1", "mca1", "float32", [5]⟩] : List ColumnDesc).filter
        (fun d => decide (d.shape = [])) = [] := by
  decide

theorem fio_colLinesAux_eq :
    ∀ (datadesc : List ColumnDesc) (i : Nat),
      fio_colLinesAux i datadesc =
        (enumColLines i (datadesc.filter fioKeepCol),
         i + (datadesc.filter fioKeepCol).length) := by
  intro datadesc
  induction datadesc with
  | nil => intro i; simp [fio_colLinesAux, enumColLines]
  | cons d ds ih =>
    intro i
    by_cases h : d.name = "point_nb" ∨ d.name = "timestamp"
    · have hk : fioKeepCol d = false := by
        unfold fioKeepCol
        rcases h with h | h <;> simp [h]
      unfold fio_colLinesAux
      rw [if_pos h, List.filter_cons, hk]
      simpa using ih i
    · have hk : fioKeepCol d = true := by
        unfold fioKeepCol
        rw [not_or] at h
        simp [h.1, h.2]
      unfold fio_colLinesAux
      rw [if_neg h, ih (i + 1), List.filter_cons, hk]
      simp only [if_pos, List.length_cons, enumColLines, Prod.mk.injEq]
      refine ⟨?_, by omega⟩
      simp

/-- C6 (amended): the FIO data-section header has one `Col` line per
descriptor other than `point_nb` and `timestamp` - regardless of its
shape, so spectrum descriptors are listed too - numbered consecutively
from 1, with kind DOUBLE exactly for `float64` and FLOAT otherwise, and
a synthetic `timestamp DOUBLE` column always appended last; each body
line carries the values of the shape-length-≠-1 descriptors (minus
`point_nb`/`timestamp`) in that order with the timestamp value last. -/
theorem C6_fio_data_section (datadesc : List ColumnDesc)
    (ctNames : List String) (data : List (String × String)) :
    (fio_colLines datadesc =
      enumColLines 1 (datadesc.filter fioKeepCol) ++
        [mkColLine ((datadesc.filter fioKeepCol).length + 1) "timestamp" "DOUBLE"]) ∧
    (∀ dt, fioColKind dt = "DOUBLE" ↔ dt = "float64") ∧
    ((fio_bodyValues ctNames data).getLast? =
      some ((lookupStr data "timestamp").getD "nan")) ∧
    (fio_bodyLine ctNames data =
      String.join ((fio_bodyValues ctNames data).map (fun v => " " ++ v)) ++ "\n") := by
  refine ⟨?_, ?_, ?_, rfl⟩
  · unfold fio_colLines
    rw [fio_colLinesAux_eq datadesc 1, Nat.add_comm]
  · intro dt
    unfold fioColKind
    by_cases h : dt = "float64" <;> simp [h]
  · unfold fio_bodyValues
    exact List.getLast?_concat _

/-- C7: the code compresses a dataset whose rank equals the configured
compression rank (it takes `compmakedata` unless `len(shape) <
comprank`), although its own docstring and the spec require the rank to
be strictly larger than the threshold; here a rank-1 shape with
threshold 1 is compressed even though 1 does not exceed 1. The
negative-threshold and missing-shape branches are uncompressed as
documented. -/
theorem C7_code_divergence :
    makedataCompressed (some [10]) none 1 = true ∧
    ¬ ((1 : Int) < (([10] : List Nat).length : Int)) ∧
    makedataCompressed none none 1 = false ∧
    makedataCompressed (some [10]) none (-1) = false ∧
    makedataCompressed (some [10]) (some (-1)) 1 = false := by
  decide

theorem nxscan_writeRecord_length (recno : Nat) (data : String → Option PyData) :
    ∀ datadesc : List ColumnDesc,
      (nxscan_writeRecord datadesc recno data).length =
        (datadesc.filter (fun dd => (data dd.name).isSome)).length := by
  intro datadesc
  induction datadesc with
  | nil => rfl
  | cons d ds ih =>
    unfold nxscan_writeRecord at ih ⊢
    cases h : data d.name <;>
      simp [List.filterMap_cons, List.filter_cons, h, ih]

/-- C8: `NXscan_FileRecorder._writeRecord` issues exactly one slab per
descriptor whose name is present in the record; every slab is written
at offset `record.recordno` along the leading dimension (zeros
elsewhere); a present-but-`None` value produces a zero-filled block of
the descriptor's shape and dtype; an array of mismatched dtype is cast
to the declared dtype (with the debug notice recorded in `casted`) and
never makes the call fail - the embedding is a total function. -/
theorem C8_slab_writes (datadesc : List ColumnDesc) (recno : Nat)
    (data : String → Option PyData) :
    ((nxscan_writeRecord datadesc recno data).length =
      (datadesc.filter (fun dd => (data dd.name).isSome)).length) ∧
    (∀ dd ∈ datadesc, ∀ v, data dd.name = some v →
      writeSlab dd recno v ∈ nxscan_writeRecord datadesc recno data) ∧
    (∀ (dd : ColumnDesc) (v : PyData),
      (writeSlab dd recno v).offset = recno :: List.replicate dd.shape.length 0) ∧
    (∀ dd : ColumnDesc, (writeSlab dd recno .pynone).zerofilled = true ∧
      (writeSlab dd recno .pynone).slabshape = 1 :: dd.shape ∧
      (writeSlab dd recno .pynone).dtype = dd.dtype) ∧
    (∀ (dd : ColumnDesc) (dt : String) (sh : List Nat),
      (writeSlab dd recno (.array dt sh)).dtype = dd.dtype ∧
        ((writeSlab dd recno (.array dt sh)).casted = true ↔ dt ≠ dd.dtype)) := by
  refine ⟨nxscan_writeRecord_length recno data datadesc, ?_, ?_, ?_, ?_⟩
  · intro dd hdd v hv
    exact List.mem_filterMap.mpr ⟨dd, hdd, by rw [hv]; rfl⟩
  · intro dd v
    cases v <;> rfl
  · intro dd
    exact ⟨rfl, rfl, rfl⟩
  · intro dd dt sh
    exact ⟨rfl, by simp [writeSlab]⟩

theorem C8_slab_writes_witness :
    writeSlab ⟨"mot1", "mot1", "float64", []⟩ 5 (.array "float32" []) ∈
      nxscan_writeRecord [⟨"mot1", "mot1", "float64", []⟩] 5 c8data ∧
    (writeSlab ⟨"mot1", "mot1", "float64", []⟩ 5 (.array "float32" [])).dtype = "float64" ∧
    (writeSlab ⟨"mot1", "mot1", "float64", []⟩ 5 (.array "float32" [])).casted = true :=
  ⟨(C8_slab_writes [⟨"mot1", "mot1", "float64", []⟩] 5 c8data).2.1
      ⟨"mot1", "mot1", "float64", []⟩ (by decide) (.array "float32" []) (by decide),
   ((C8_slab_writes [⟨"mot1", "mot1", "float64", []⟩] 5 c8data).2.2.2.2
      ⟨"mot1", "mot1", "float64", []⟩ "float32" []).1,
   (((C8_slab_writes [⟨"mot1", "mot1", "float64", []⟩] 5 c8data).2.2.2.2
      ⟨"mot1", "mot1", "float64", []⟩ "float32" []).2).mpr (by decide)⟩

/-- C9 counterexample: a descriptor of dtype "bool" - which is outside
the `supported_dtypes` set - is not excluded by
`NXscan_FileRecorder._startRecordList`: it is converted to int8 and
kept, and no warning is logged for it. -/
theorem C9_counterexample :
    "bool" ∉ supported_dtypes ∧
    (nxscan_filterDesc [⟨"boolchan", "boolchan", "bool", []⟩]).1 =
      [⟨"boolchan", "boolchan", "int8", []⟩] ∧
    (nxscan_filterDesc [⟨"boolchan", "boolchan", "bool", []⟩]).2 = [] := by
  decide

theorem nxscan_filterDesc_eq :
    ∀ dds : List ColumnDesc,
      (nxscan_filterDesc dds).1 =
        (dds.map nxscan_convertDesc).filter
          (fun d => decide (d.dtype ∈ supported_dtypes)) ∧
      (nxscan_filterDesc dds).2 =
        (dds.filter
          (fun d => decide ((nxscan_convertDesc d).dtype ∉ supported_dtypes))).map
          (fun d => d.name) := by
  intro dds
  induction dds with
  | nil => exact ⟨rfl, rfl⟩
  | cons d ds ih =>
    unfold nxscan_filterDesc
    by_cases h : (nxscan_convertDesc d).dtype ∈ supported_dtypes
    · rw [if_pos h]
      simp [List.filter_cons, h, ih.1, ih.2]
    · rw [if_neg h]
      simp [List.filter_cons, h, ih.1, ih.2]

theorem spec_snapshotFilter_eq :
    ∀ snap : List SnapDesc,
      (spec_snapshotFilter snap).1.1 =
        (snap.filter
          (fun d => decide (d.shape = [] ∧ d.dtype ∈ supported_dtypes))).map
          (fun d => d.label) ∧
      (spec_snapshotFilter snap).1.2 =
        (snap.filter
          (fun d => decide (d.shape = [] ∧ d.dtype ∈ supported_dtypes))).map
          (fun d => d.value) ∧
      (spec_snapshotFilter snap).2 =
        (snap.filter
          (fun d => decide (¬ (d.shape = [] ∧ d.dtype ∈ supported_dtypes)))).map
          (fun d => d.label) := by
  intro snap
  induction snap with
  | nil => exact ⟨rfl, rfl, rfl⟩
  | cons d ds ih =>
    unfold spec_snapshotFilter
    by_cases h1 : d.shape.length > 0
    · have hsh : ¬ d.shape = [] := by
        intro h
        rw [h] at h1
        simp at h1
      rw [if_pos h1]
      simp [List.filter_cons, hsh, ih.1, ih.2.1, ih.2.2]
    · have hsh : d.shape = [] := by
        cases hs : d.shape with
        | nil => rfl
        | cons a l => rw [hs] at h1; simp at h1
      rw [if_neg h1]
      by_cases h2 : d.dtype ∈ supported_dtypes
      · rw [if_pos h2]
        simp [List.filter_cons, hsh, h2, ih.1, ih.2.1, ih.2.2]
      · rw [if_neg h2]
        simp [List.filter_cons, hsh, h2, ih.1, ih.2.1, ih.2.2]

/-- C9 (amended): every descriptor whose element type - after the
bool-to-int8 conversion the code applies first - is outside the
supported set is excluded from the persisted datasets with one log
entry carrying its name, and the kept descriptors are exactly the
supported ones in order (so an unsupported descriptor never affects the
others, and the filter is a total function: no abort); likewise the
pre-scan-snapshot filter of the flat-table writer keeps exactly the
scalar supported items and logs the rest. -/
theorem C9_unsupported_excluded (dds : List ColumnDesc) (snap : List SnapDesc) :
    ((nxscan_filterDesc dds).1 =
      (dds.map nxscan_convertDesc).filter
        (fun d => decide (d.dtype ∈ supported_dtypes))) ∧
    ((nxscan_filterDesc dds).2 =
      (dds.filter
        (fun d => decide ((nxscan_convertDesc d).dtype ∉ supported_dtypes))).map
        (fun d => d.name)) ∧
    (∀ d ∈ dds, (nxscan_convertDesc d).dtype ∉ supported_dtypes →
      nxscan_convertDesc d ∉ (nxscan_filterDesc dds).1 ∧
        d.name ∈ (nxscan_filterDesc dds).2) ∧
    ((spec_snapshotFilter snap).1.1 =
      (snap.filter
        (fun d => decide (d.shape = [] ∧ d.dtype ∈ supported_dtypes))).map
        (fun d => d.label)) ∧
    ((spec_snapshotFilter snap).2 =
      (snap.filter
        (fun d => decide (¬ (d.shape = [] ∧ d.dtype ∈ supported_dtypes)))).map
        (fun d => d.label)) := by
  refine ⟨(nxscan_filterDesc_eq dds).1, (nxscan_filterDesc_eq dds).2, ?_,
    (spec_snapshotFilter_eq snap).1, (spec_snapshotFilter_eq snap).2.2⟩
  intro d hd hun
  constructor
  · rw [(nxscan_filterDesc_eq dds).1]
    intro hmem
    exact hun (by simpa using (List.mem_filter.mp hmem).2)
  · rw [(nxscan_filterDesc_eq dds).2]
    exact List.mem_map.mpr ⟨d, List.mem_filter.mpr ⟨hd, by simpa using hun⟩, rfl⟩

theorem C9_unsupported_excluded_witness :
    nxscan_convertDesc ⟨"str1", "str1", "str", []⟩ ∉
      (nxscan_filterDesc [⟨"str1", "str1", "str", []⟩]).1 ∧
    "str1" ∈ (nxscan_filterDesc [⟨"str1", "str1", "str", []⟩]).2 :=
  (C9_unsupported_excluded [⟨"str1", "str1", "str", []⟩] []).2.2.1
    ⟨"str1", "str1", "str", []⟩ (by decide) (by decide)

/-- C10: a macro hint naming a globally known subclass of
`BaseFileRecorder` makes the factory return that class for every
filename; in every other case (no hint, hint not in `globals()`, hint
bound to a non-recorder object) the lowercased filename extension
selects the back-end, and the flat-table (SPEC) recorder is chosen for
missing or unrecognized extensions. -/
theorem C10_backend_selection (globalsMap : String → Option GEntry) (filename : String) :
    (∀ n g, globalsMap n = some g → g.isRecorderSubclass = true →
      fileRecorderSelect (some n) globalsMap filename = g.klass) ∧
    (∀ n, globalsMap n = none →
      fileRecorderSelect (some n) globalsMap filename = extSelect (extOf filename)) ∧
    (∀ n g, globalsMap n = some g → g.isRecorderSubclass = false →
      fileRecorderSelect (some n) globalsMap filename = extSelect (extOf filename)) ∧
    (fileRecorderSelect none globalsMap filename = extSelect (extOf filename)) ∧
    (∀ e, e ∉ nxscanFormats → e ∉ fioFormats → e ∉ nxsFormats →
      extSelect e = .specRec) ∧
    (extSelect ".h5" = .nxscanRec ∧ extSelect ".h4" = .nxscanRec ∧
      extSelect ".xml" = .nxscanRec ∧ extSelect ".fio" = .fioRec ∧
      extSelect ".nxs" = .nxsRec ∧ extSelect ".spec" = .specRec) ∧
    (extOf "/a/noext" = ".spec" ∧ extOf "/a/B.H5" = ".h5") := by
  refine ⟨?_, ?_, ?_, rfl, ?_, by decide, by decide⟩
  · intro n g hg hsub
    unfold fileRecorderSelect
    simp [hg, hsub]
  · intro n hg
    unfold fileRecorderSelect
    simp [hg]
  · intro n g hg hsub
    unfold fileRecorderSelect
    simp [hg, hsub]
  · intro e h1 h2 h3
    unfold extSelect
    rw [if_neg h1, if_neg h2, if_neg h3]

theorem C10_backend_selection_witness :
    fileRecorderSelect (some "NXxas_FileRecorder") c10globals "/a/b.h5" =
      RKlass.customRec "NXxas_FileRecorder" ∧
    fileRecorderSelect (some "NoSuchClass") c10globals "/a/b.h5" =
      extSelect (extOf "/a/b.h5") ∧
    extSelect ".dat" = RKlass.specRec :=
  ⟨(C10_backend_selection c10globals "/a/b.h5").1 "NXxas_FileRecorder"
      ⟨RKlass.customRec "NXxas_FileRecorder", true⟩ (by decide) rfl,
   (C10_backend_selection c10globals "/a/b.h5").2.1 "NoSuchClass" (by decide),
   (C10_backend_selection c10globals "/a/b.h5").2.2.2.2.1 ".dat"
      (by decide) (by decide) (by decide)⟩

end Sardana







